import Mathlib

/-!
Verification of the two CLI scripts of this repository, `src/ads.py` and
`src/find_net_id.py`, against their natural-language specification.

Both scripts delegate all protocol work to the third-party `pyads` library;
the scripts themselves are straight-line control flow around library calls.
We embed that control flow shallowly: every library call's outcome is a
field of an explicit environment (the fault model), and each run of a
script produces the exact sequence of externally visible actions it
performs (library calls with their arguments, lines printed to standard
output, lines printed to standard error), in program order, together with
the process exit status where a claim needs it.  Python's `try/except`
blocks become case analysis on the environment: each branch's action list
is precisely the prefix of the script that executes before the exception
(if any) plus the handler's actions.
-/

namespace AutomationHub

/-- Failure kinds of exceptions raised by the wrapped library, following
the spec's error taxonomy (section 7).  All pyads exceptions are Python
`Exception` subclasses, so all of them are caught by the scripts'
`except Exception` handlers. -/
inductive ErrorKind where
  | connectError
  | timeoutError
  | protocolError
  | symbolNotFound
  | decodeError
  | other
deriving DecidableEq

/-- A raised library exception: its kind and the message produced by
Python's `str(e)`, which is what the scripts interpolate into their
diagnostics. -/
structure PyError where
  kind : ErrorKind
  msg : String
deriving DecidableEq

/-- A value returned by `read_by_name`.  The script treats the value
opaquely (it is read and then printed, never computed with), so we model
the PLCTYPE_REAL payload as an abstract token carrying its printed form,
the string `print(tag_value)` would emit. -/
structure PlcValue where
  printed : String
deriving DecidableEq

/-- The pyads PLC data-type enumeration, as far as the scripts touch it.
`src/ads.py` line 13 passes exactly `pyads.PLCTYPE_REAL` (32-bit float). -/
inductive PlcType where
  | real
  | lreal
  | int
  | dint
  | bool
  | string
deriving DecidableEq

/-- `src/ads.py` line 5: the AMS net id of the PLC, a module-level
constant. -/
def PLC_AMS_NET_ID : String := "172.18.236.210.1.1"

/-- The pyads library constant `pyads.PORT_TC3PLC1` (TwinCAT 3 PLC
runtime 1), numerically 851. -/
def PORT_TC3PLC1 : Nat := 851

/-- `src/ads.py` line 6: the PLC port, a module-level constant. -/
def PLC_PORT : Nat := PORT_TC3PLC1

/-- Externally visible actions a run of either script can perform, in
program order: pyads calls with their arguments, and lines written to the
two standard streams. -/
inductive Action where
  | connectionCreated (netId : String) (port : Nat)
  | opened
  | readByName (tag : String) (ty : PlcType)
  | closeCalled
  | printStdout (line : String)
  | printStderr (line : String)
  | portOpened (port : Nat)
  | portClosed (port : Nat)
deriving DecidableEq

/-- The line an action writes to standard output, if any. -/
def Action.stdoutLine : Action → Option String
  | .printStdout s => some s
  | _ => none

/-- The line an action writes to standard error, if any. -/
def Action.stderrLine : Action → Option String
  | .printStderr s => some s
  | _ => none

/-- The (net id, port) pair of a connection-creation action, if any. -/
def Action.connectTarget : Action → Option (String × Nat)
  | .connectionCreated n p => some (n, p)
  | _ => none

/-- The (tag, requested wire type) pair of a `read_by_name` call, if
any. -/
def Action.readRequest : Action → Option (String × PlcType)
  | .readByName t ty => some (t, ty)
  | _ => none

/-- All standard-output lines of a trace, in order. -/
def stdoutOf (tr : List Action) : List String :=
  tr.filterMap Action.stdoutLine

/-- All standard-error lines of a trace, in order. -/
def stderrOf (tr : List Action) : List String :=
  tr.filterMap Action.stderrLine

/-- All connection targets of a trace, in order. -/
def connectTargets (tr : List Action) : List (String × Nat) :=
  tr.filterMap Action.connectTarget

/-- All `read_by_name` requests of a trace, in order. -/
def readRequests (tr : List Action) : List (String × PlcType) :=
  tr.filterMap Action.readRequest

/-- Fault model for the pyads calls made by `src/ads.py`.  The
`pyads.Connection(...)` constructor only stores its arguments and cannot
fail; `plc.open()`, `plc.read_by_name(...)` and `plc.close()` each either
succeed or raise a library exception, as recorded here. -/
structure PlcEnv where
  openRaises : Option PyError
  readResult : String → PlcType → Except PyError PlcValue
  closeRaises : Option PyError

/-- `src/ads.py` line 18: the scripts' diagnostic format
`f"Python Error: {e}"`. -/
def formatPyError (e : PyError) : String :=
  "Python Error: " ++ e.msg

/-- `src/ads.py` lines 8-19, `read_plc_tag(tag_name)`:

    try:
        plc = pyads.Connection(PLC_AMS_NET_ID, PLC_PORT)
        plc.open()
        value = plc.read_by_name(tag_name, pyads.PLCTYPE_REAL)
        plc.close()
        return value
    except Exception as e:
        print(f"Python Error: {e}", file=sys.stderr)
        return None

Returns the Python return value (`None` on the handler path) together
with the trace of actions performed.  Each branch's trace is exactly the
prefix of the body executed before the exception, plus the handler's
single print to standard error. -/
def read_plc_tag (env : PlcEnv) (tag_name : String) :
    Option PlcValue × List Action :=
  match env.openRaises with
  | some e =>
      (none,
       [Action.connectionCreated PLC_AMS_NET_ID PLC_PORT,
        Action.printStderr (formatPyError e)])
  | none =>
      match env.readResult tag_name PlcType.real with
      | .error e =>
          (none,
           [Action.connectionCreated PLC_AMS_NET_ID PLC_PORT,
            Action.opened,
            Action.readByName tag_name PlcType.real,
            Action.printStderr (formatPyError e)])
      | .ok value =>
          match env.closeRaises with
          | some e =>
              (none,
               [Action.connectionCreated PLC_AMS_NET_ID PLC_PORT,
                Action.opened,
                Action.readByName tag_name PlcType.real,
                Action.closeCalled,
                Action.printStderr (formatPyError e)])
          | none =>
              (some value,
               [Action.connectionCreated PLC_AMS_NET_ID PLC_PORT,
                Action.opened,
                Action.readByName tag_name PlcType.real,
                Action.closeCalled])

/-- `src/ads.py` lines 21-31, the `__main__` block:

    if len(sys.argv) > 1:
        tag_to_read = sys.argv[1]
        tag_value = read_plc_tag(tag_to_read)
        if tag_value is not None:
            print(tag_value)
    else:
        print("Python Error: No tag name provided.", file=sys.stderr)

`argv` models `sys.argv`, whose head is the script path; `len(sys.argv) > 1`
holds exactly when `argv` has a second element.  The script contains no
`sys.exit` call and every exception the library can raise is an
`Exception` caught inside `read_plc_tag`, so the interpreter always
terminates normally: the exit status (first component) is 0 on every
path. -/
def ads_main (env : PlcEnv) (argv : List String) : Nat × List Action :=
  match argv with
  | _prog :: tag_to_read :: _ =>
      match read_plc_tag env tag_to_read with
      | (some tag_value, tr) => (0, tr ++ [Action.printStdout tag_value.printed])
      | (none, tr) => (0, tr)
  | _ => (0, [Action.printStderr "Python Error: No tag name provided."])

/-- The pyads `AmsAddr` object returned by `adsGetLocalAddressEx`:
its `__dict__` entries (attribute name, Python repr of the stored value)
and the value of its `netid` attribute when the object has one (the
script probes for it with `hasattr`). -/
structure AmsAddr where
  attrs : List (String × String)
  netid : Option String

/-- Python's repr of one `__dict__` entry: `'name': value`. -/
def dictEntryRepr (kv : String × String) : String :=
  "\x27" ++ kv.1 ++ "\x27: " ++ kv.2

/-- Python's repr of the whole `__dict__`, as `print(obj.__dict__)`
writes it: entries joined by `, ` between braces. -/
def dictRepr (a : AmsAddr) : String :=
  "\x7b" ++ String.intercalate ", " (a.attrs.map dictEntryRepr) ++ "\x7d"

/-- Fault model for the pyads calls made by `src/find_net_id.py`:
`adsPortOpenEx()` either raises or returns a port number, and
`adsGetLocalAddressEx(port)` either raises or returns the address
object.  `adsPortCloseEx` is modelled as non-raising. -/
structure RouterEnv where
  portOpenResult : Except PyError Nat
  localAddressResult : Nat → Except PyError AmsAddr

/-- The `finally` block of `src/find_net_id.py` lines 23-26:

    if 'port' in locals() and port:
        pyads_ex.adsPortCloseEx(port)

This runs only when `port` was assigned (the open call returned), and
`and port` is Python truthiness: a port value of 0 skips the close. -/
def closeTrace (port : Nat) : List Action :=
  if port ≠ 0 then [Action.portClosed port] else []

/-- `src/find_net_id.py`, the whole script:

    try:
        port = pyads_ex.adsPortOpenEx()
        local_address = pyads_ex.adsGetLocalAddressEx(port)
        print("--- AmsAddr Object Attributes ---")
        print(local_address.__dict__)
        print("---------------------------")
        if hasattr(local_address, 'netid'):
            print(f"PYADS_AMS_NET_ID:{local_address.netid}")
    except Exception as e:
        print(f"Error getting local AMS Net ID: {e}")
    finally:
        if 'port' in locals() and port:
            pyads_ex.adsPortCloseEx(port)

Every `print` here has no `file=` argument, so every line — the
diagnostic in the handler included — goes to standard output.

The script is split into three Lean definitions along its block
structure: `reportAddress` is the body after `adsGetLocalAddressEx`
returned (lines 11-18), `routerTryBody` is the remainder of the `try`
block after the port was opened (lines 8-18, succeeding or jumping to
the `except` handler), and `find_net_id` wraps them with the port-open
call and the `finally` close. -/
def reportAddress (local_address : AmsAddr) : List Action :=
  [Action.printStdout "--- AmsAddr Object Attributes ---",
   Action.printStdout (dictRepr local_address),
   Action.printStdout "---------------------------"]
  ++ (match local_address.netid with
      | some nid => [Action.printStdout ("PYADS_AMS_NET_ID:" ++ nid)]
      | none => [])

/-- Lines 8-21 of `src/find_net_id.py` once `port` is assigned: either
the rest of the `try` block runs (`reportAddress`), or
`adsGetLocalAddressEx` raises and the `except` handler prints its
diagnostic — to standard output, as the `print` has no `file=`. -/
def routerTryBody (env : RouterEnv) (port : Nat) : List Action :=
  match env.localAddressResult port with
  | .error e =>
      [Action.printStdout ("Error getting local AMS Net ID: " ++ e.msg)]
  | .ok local_address => reportAddress local_address

/-- The whole script: open the port (its failure goes straight to the
`except` handler, with `port` never assigned, so no close); otherwise
run the rest of the `try` block and then the `finally` close. -/
def find_net_id (env : RouterEnv) : List Action :=
  match env.portOpenResult with
  | .error e =>
      [Action.printStdout ("Error getting local AMS Net ID: " ++ e.msg)]
  | .ok port =>
      (Action.portOpened port :: routerTryBody env port) ++ closeTrace port

/-! Concrete environments used by counterexamples and witnesses. -/

/-- Everything succeeds; the device holds a value printed as `23.5`. -/
def envOk : PlcEnv where
  openRaises := none
  readResult := fun _ _ => .ok ⟨"23.5"⟩
  closeRaises := none

/-- `plc.open()` raises a connection error (device unreachable). -/
def envConnFail : PlcEnv where
  openRaises := some ⟨.connectError, "connection refused"⟩
  readResult := fun _ _ => .error ⟨.other, "unreachable"⟩
  closeRaises := none

/-- `read_by_name` raises (open succeeded). -/
def envReadFail : PlcEnv where
  openRaises := none
  readResult := fun _ _ => .error ⟨.other, "read failed"⟩
  closeRaises := none

/-- `read_by_name` raises the library's symbol-not-found error. -/
def envSymFail : PlcEnv where
  openRaises := none
  readResult := fun _ _ => .error ⟨.symbolNotFound, "symbol not found"⟩
  closeRaises := none

/-- `read_by_name` raises a generic device protocol error. -/
def envProtoFail : PlcEnv where
  openRaises := none
  readResult := fun _ _ => .error ⟨.protocolError, "protocol error 0x710"⟩
  closeRaises := none

/-- The concrete address object used in discovery examples. -/
def addrOk : AmsAddr where
  attrs := [("_ams_addr", "<pyads.structs.SAmsAddr object>")]
  netid := some "192.168.1.10.1.1"

/-- Router discovery succeeds: port 32905, address object `addrOk`. -/
def envRouterOk : RouterEnv where
  portOpenResult := .ok 32905
  localAddressResult := fun _ => .ok addrOk

/-- `adsPortOpenEx` raises. -/
def envRouterFail : RouterEnv where
  portOpenResult := .error ⟨.connectError, "port open failed"⟩
  localAddressResult := fun _ => .error ⟨.other, "no port"⟩

/-! Helper lemmas shared by the claim theorems. -/

/-- Standard output distributes over trace concatenation. -/
theorem stdoutOf_append (xs ys : List Action) :
    stdoutOf (xs ++ ys) = stdoutOf xs ++ stdoutOf ys :=
  List.filterMap_append xs ys Action.stdoutLine

/-- Standard error distributes over trace concatenation. -/
theorem stderrOf_append (xs ys : List Action) :
    stderrOf (xs ++ ys) = stderrOf xs ++ stderrOf ys :=
  List.filterMap_append xs ys Action.stderrLine

/-- Connection targets distribute over trace concatenation. -/
theorem connectTargets_append (xs ys : List Action) :
    connectTargets (xs ++ ys) = connectTargets xs ++ connectTargets ys :=
  List.filterMap_append xs ys Action.connectTarget

/-- Read requests distribute over trace concatenation. -/
theorem readRequests_append (xs ys : List Action) :
    readRequests (xs ++ ys) = readRequests xs ++ readRequests ys :=
  List.filterMap_append xs ys Action.readRequest

/-- `read_plc_tag` never writes to standard output on any path. -/
theorem stdoutOf_read_plc_tag (env : PlcEnv) (tag : String) :
    stdoutOf (read_plc_tag env tag).2 = [] := by
  unfold read_plc_tag
  rcases env.openRaises with _ | e
  · rcases env.readResult tag PlcType.real with e | v
    · rfl
    · rcases env.closeRaises with _ | e <;> rfl
  · rfl

/-- Every run of `read_plc_tag` takes exactly one of the two source exit
paths: the `except` handler (returns `None`, exactly one diagnostic line
on standard error) or the normal return (a value, nothing on standard
error). -/
theorem read_plc_tag_exit_paths (env : PlcEnv) (tag : String) :
    ((read_plc_tag env tag).1 = none ∧
      ∃ m, stderrOf (read_plc_tag env tag).2 = ["Python Error: " ++ m]) ∨
    (∃ v, (read_plc_tag env tag).1 = some v ∧
      stderrOf (read_plc_tag env tag).2 = []) := by
  unfold read_plc_tag
  rcases env.openRaises with _ | e
  · rcases env.readResult tag PlcType.real with e | v
    · exact Or.inl ⟨rfl, e.msg, rfl⟩
    · rcases env.closeRaises with _ | e
      · exact Or.inr ⟨v, rfl, rfl⟩
      · exact Or.inl ⟨rfl, e.msg, rfl⟩
  · exact Or.inl ⟨rfl, e.msg, rfl⟩

/-- `plc.close()` is reached exactly when both `plc.open()` and
`plc.read_by_name` succeed: there is no `finally`, so any earlier
exception jumps straight to the handler. -/
theorem closeCalled_iff (env : PlcEnv) (tag : String) :
    Action.closeCalled ∈ (read_plc_tag env tag).2 ↔
      env.openRaises = none ∧
        ∃ v, env.readResult tag PlcType.real = Except.ok v := by
  unfold read_plc_tag
  rcases h1 : env.openRaises with _ | e
  · rcases h2 : env.readResult tag PlcType.real with e | v
    · simp
    · rcases h3 : env.closeRaises with _ | e <;> simp
  · simp

/-- The connection-creation trace of `read_plc_tag`: exactly one
connection, always to the two module-level constants. -/
theorem connectTargets_read_plc_tag (env : PlcEnv) (tag : String) :
    connectTargets (read_plc_tag env tag).2 = [(PLC_AMS_NET_ID, PLC_PORT)] := by
  unfold read_plc_tag
  rcases env.openRaises with _ | e
  · rcases env.readResult tag PlcType.real with e | v
    · rfl
    · rcases env.closeRaises with _ | e <;> rfl
  · rfl

/-- The `read_by_name` trace of `read_plc_tag`: no request when `open`
raises, otherwise exactly one, for the given tag with `PLCTYPE_REAL`. -/
theorem readRequests_read_plc_tag (env : PlcEnv) (tag : String) :
    readRequests (read_plc_tag env tag).2 =
      if env.openRaises.isSome = true then [] else [(tag, PlcType.real)] := by
  unfold read_plc_tag
  rcases env.openRaises with _ | e
  · rcases env.readResult tag PlcType.real with e | v
    · rfl
    · rcases env.closeRaises with _ | e <;> rfl
  · rfl

/-- Unfolding `ads_main` past the `len(sys.argv) > 1` test. -/
theorem ads_main_cons (env : PlcEnv) (prog tag : String) (rest : List String) :
    ads_main env (prog :: tag :: rest) =
      match read_plc_tag env tag with
      | (some tag_value, tr) => (0, tr ++ [Action.printStdout tag_value.printed])
      | (none, tr) => (0, tr) := rfl

/-- The `__main__` trace with at least one CLI argument is the
`read_plc_tag` trace, followed by the value line on standard output
exactly when the read returned a value. -/
theorem ads_main_trace (env : PlcEnv) (prog tag : String) (rest : List String) :
    (ads_main env (prog :: tag :: rest)).2 =
      (read_plc_tag env tag).2 ++
        (match (read_plc_tag env tag).1 with
         | some v => [Action.printStdout v.printed]
         | none => []) := by
  rw [ads_main_cons]
  rcases h : read_plc_tag env tag with ⟨res, tr⟩
  rcases res with _ | v <;> simp

/-- The script never calls `sys.exit` and catches every exception, so the
interpreter's exit status is 0 on every path. -/
theorem ads_main_exit (env : PlcEnv) (argv : List String) :
    (ads_main env argv).1 = 0 := by
  match argv with
  | [] => rfl
  | [p] => rfl
  | p :: tag :: rest =>
      rw [ads_main_cons]
      rcases h : read_plc_tag env tag with ⟨res, tr⟩
      rcases res with _ | v <;> rfl

/-- The `finally` close writes to neither stream. -/
theorem stdoutOf_closeTrace (p : Nat) : stdoutOf (closeTrace p) = [] := by
  unfold closeTrace
  split <;> rfl

/-- The `finally` close writes to neither stream. -/
theorem stderrOf_closeTrace (p : Nat) : stderrOf (closeTrace p) = [] := by
  unfold closeTrace
  split <;> rfl

/-- Unfolding `find_net_id` when `adsPortOpenEx` raises. -/
theorem find_net_id_portFail (envR : RouterEnv) (e : PyError)
    (h : envR.portOpenResult = Except.error e) :
    find_net_id envR =
      [Action.printStdout ("Error getting local AMS Net ID: " ++ e.msg)] := by
  unfold find_net_id
  rw [h]

/-- Unfolding `find_net_id` when `adsPortOpenEx` returns a port. -/
theorem find_net_id_portOk (envR : RouterEnv) (p : Nat)
    (h : envR.portOpenResult = Except.ok p) :
    find_net_id envR =
      (Action.portOpened p :: routerTryBody envR p) ++ closeTrace p := by
  unfold find_net_id
  rw [h]

/-- Neither branch of the `try` body past the port-open writes to
standard error. -/
theorem stderrOf_routerTryBody (envR : RouterEnv) (p : Nat) :
    stderrOf (routerTryBody envR p) = [] := by
  unfold routerTryBody
  rcases envR.localAddressResult p with e | ⟨attrs, nd⟩
  · rfl
  · rcases nd with _ | nid <;> rfl

/-- `find_net_id.py` never writes anything to standard error: every
`print` in the script, the error handler's included, targets standard
output. -/
theorem find_net_id_stderr (envR : RouterEnv) :
    stderrOf (find_net_id envR) = [] := by
  rcases h : envR.portOpenResult with e | port
  · rw [find_net_id_portFail envR e h]
    rfl
  · rw [find_net_id_portOk envR port h, stderrOf_append,
        show stderrOf (Action.portOpened port :: routerTryBody envR port) =
          stderrOf (routerTryBody envR port) from rfl,
        stderrOf_routerTryBody, stderrOf_closeTrace]
    rfl

/-- With at least one CLI argument, standard output of the tag-reading
script is exactly the value line of a successful read and empty
otherwise. -/
theorem ads_main_stdout (env : PlcEnv) (prog tag : String) (rest : List String) :
    stdoutOf (ads_main env (prog :: tag :: rest)).2 =
      (match (read_plc_tag env tag).1 with
       | some v => [v.printed]
       | none => []) := by
  rw [ads_main_trace, stdoutOf_append, stdoutOf_read_plc_tag]
  rcases (read_plc_tag env tag).1 with _ | v <;> rfl

/-! The claims. -/

/-- Claim C1, as stated, is false at a concrete input: with the device
unreachable (`plc.open()` raises a connection error) and the CLI invoked
with a tag argument, the script prints its diagnostic to standard error
and nothing to standard output, but the process exit status is 0, not
non-zero — `src/ads.py` contains no `sys.exit` call. -/
theorem C1_counterexample :
    (read_plc_tag envConnFail "Temperature").1 = none ∧
    stderrOf (ads_main envConnFail ["ads.py", "Temperature"]).2 =
      ["Python Error: connection refused"] ∧
    stdoutOf (ads_main envConnFail ["ads.py", "Temperature"]).2 = [] ∧
    (ads_main envConnFail ["ads.py", "Temperature"]).1 = 0 :=
  ⟨rfl, rfl, rfl, rfl⟩

/-- Claim C1 (amended): for every invocation of the tag-reading CLI in
which the connect/read fails (any exception is raised), the process
prints a single diagnostic line to standard error, prints nothing to
standard output, and exits with status zero. -/
theorem C1_failure_behavior (env : PlcEnv) (prog tag : String)
    (rest : List String) (h : (read_plc_tag env tag).1 = none) :
    stdoutOf (ads_main env (prog :: tag :: rest)).2 = [] ∧
    (∃ m, stderrOf (ads_main env (prog :: tag :: rest)).2 =
      ["Python Error: " ++ m]) ∧
    (ads_main env (prog :: tag :: rest)).1 = 0 := by
  have htr : (ads_main env (prog :: tag :: rest)).2 = (read_plc_tag env tag).2 := by
    rw [ads_main_trace, h]
    exact List.append_nil _
  rcases read_plc_tag_exit_paths env tag with ⟨_, m, hm⟩ | ⟨v, hv, _⟩
  · exact ⟨by rw [htr, stdoutOf_read_plc_tag],
      ⟨m, by rw [htr, hm]⟩, ads_main_exit env (prog :: tag :: rest)⟩
  · rw [hv] at h
    exact absurd h (by simp)

/-- Claim C1: witness instantiating the amended theorem at the
unreachable-device environment. -/
theorem C1_failure_behavior_witness :
    (read_plc_tag envConnFail "Temperature").1 = none ∧
    (stdoutOf (ads_main envConnFail ["ads.py", "Temperature"]).2 = [] ∧
     (∃ m, stderrOf (ads_main envConnFail ["ads.py", "Temperature"]).2 =
       ["Python Error: " ++ m]) ∧
     (ads_main envConnFail ["ads.py", "Temperature"]).1 = 0) :=
  ⟨rfl, C1_failure_behavior envConnFail "ads.py" "Temperature" [] rfl⟩

/-- Claim C2, as stated, is false at a concrete input: when
`read_by_name` raises after `plc.open()` succeeded, `read_plc_tag`
returns from its exception handler with the connection opened but never
closed — there is no `finally` block in `src/ads.py`. -/
theorem C2_counterexample :
    Action.opened ∈ (read_plc_tag envReadFail "Temperature").2 ∧
    Action.closeCalled ∉ (read_plc_tag envReadFail "Temperature").2 := by
  decide

/-- Claim C2 (amended): `find_net_id.py` closes the AMS port in its
`finally` block on every exit path on which a non-zero port was opened;
`ads.py` calls `plc.close()` exactly when `open` and `read_by_name` both
succeed — on its error paths the connection is never closed and is left
to garbage collection or process exit. -/
theorem C2_close_discipline (envA : PlcEnv) (tag : String)
    (envR : RouterEnv) (p : Nat)
    (hp : envR.portOpenResult = Except.ok p) (hpz : p ≠ 0) :
    (Action.closeCalled ∈ (read_plc_tag envA tag).2 ↔
      envA.openRaises = none ∧
        ∃ v, envA.readResult tag PlcType.real = Except.ok v) ∧
    Action.portClosed p ∈ find_net_id envR := by
  refine ⟨closeCalled_iff envA tag, ?_⟩
  rw [find_net_id_portOk envR p hp]
  have hc : Action.portClosed p ∈ closeTrace p := by
    unfold closeTrace
    rw [if_pos hpz]
    exact List.mem_singleton.mpr rfl
  exact List.mem_append_right _ hc

/-- Claim C2: witness instantiating the amended theorem at the
all-succeed environments. -/
theorem C2_close_discipline_witness :
    (envRouterOk.portOpenResult = Except.ok 32905 ∧ (32905 : Nat) ≠ 0) ∧
    ((Action.closeCalled ∈ (read_plc_tag envOk "Temperature").2 ↔
       envOk.openRaises = none ∧
         ∃ v, envOk.readResult "Temperature" PlcType.real = Except.ok v) ∧
     Action.portClosed 32905 ∈ find_net_id envRouterOk) :=
  ⟨⟨rfl, by decide⟩,
   C2_close_discipline envOk "Temperature" envRouterOk 32905 rfl (by decide)⟩

/-- Claim C3, as stated, is false at a concrete input: invoked as
`ads.py 10.0.0.5.1.1 Temperature` (an endpoint-looking first argument),
the script still connects to the hardcoded module constants and treats
`"10.0.0.5.1.1"` as the tag name to read — the caller cannot supply an
endpoint. -/
theorem C3_counterexample :
    connectTargets (ads_main envOk ["ads.py", "10.0.0.5.1.1", "Temperature"]).2 =
      [(PLC_AMS_NET_ID, PLC_PORT)] ∧
    PLC_AMS_NET_ID = "172.18.236.210.1.1" ∧
    Action.readByName "10.0.0.5.1.1" PlcType.real ∈
      (ads_main envOk ["ads.py", "10.0.0.5.1.1", "Temperature"]).2 := by
  refine ⟨rfl, rfl, ?_⟩
  decide

/-- Claim C3 (amended): the endpoint is hardcoded in module-level
constants (`PLC_AMS_NET_ID = '172.18.236.210.1.1'`,
`PLC_PORT = pyads.PORT_TC3PLC1`); the command line supplies only the tag
name, and every connection the CLI ever creates, under every environment
and argument vector, targets exactly that constant pair. -/
theorem C3_endpoint_hardcoded (env : PlcEnv) (argv : List String) :
    connectTargets (ads_main env argv).2 =
      (match argv with
       | _ :: _ :: _ => [(PLC_AMS_NET_ID, PLC_PORT)]
       | _ => []) := by
  match argv with
  | [] => rfl
  | [p] => rfl
  | p :: tag :: rest =>
      rw [ads_main_trace, connectTargets_append, connectTargets_read_plc_tag]
      rcases (read_plc_tag env tag).1 with _ | v <;> rfl

/-- Claim C4, as stated, is false at a concrete input: when
`adsPortOpenEx` raises, `find_net_id.py` prints its diagnostic on
standard output (its `print` has no `file=sys.stderr`), and its standard
error stays empty — a calling process cannot distinguish this failure
from success by stream. -/
theorem C4_counterexample :
    stdoutOf (find_net_id envRouterFail) =
      ["Error getting local AMS Net ID: port open failed"] ∧
    stderrOf (find_net_id envRouterFail) = [] :=
  ⟨rfl, rfl⟩

/-- Claim C4 (amended): `ads.py` keeps the streams separate — its
standard output carries exactly the value line of a successful read and
nothing on failure — but `find_net_id.py` writes everything, its
diagnostics included, to standard output: its standard error is empty in
every environment. -/
theorem C4_stream_separation (envA : PlcEnv) (prog tag : String)
    (rest : List String) (envR : RouterEnv) :
    stdoutOf (ads_main envA (prog :: tag :: rest)).2 =
      (match (read_plc_tag envA tag).1 with
       | some v => [v.printed]
       | none => []) ∧
    stderrOf (find_net_id envR) = [] :=
  ⟨ads_main_stdout envA prog tag rest, find_net_id_stderr envR⟩

/-- Claim C5, as stated, is false at a concrete input: on a fully
successful run the discovery script's standard output is four lines, not
one — the `KEY:value` line is preceded by a debug header, the attribute
dictionary dump (which itself contains a colon), and a separator — so a
simple split on the colon over the script's standard output does not
parse the address. -/
theorem C5_counterexample :
    stdoutOf (find_net_id envRouterOk) =
      ["--- AmsAddr Object Attributes ---",
       "\x7b\x27_ams_addr\x27: <pyads.structs.SAmsAddr object>\x7d",
       "---------------------------",
       "PYADS_AMS_NET_ID:192.168.1.10.1.1"] ∧
    (stdoutOf (find_net_id envRouterOk)).length = 4 ∧
    ':' ∈ ("\x7b\x27_ams_addr\x27: <pyads.structs.SAmsAddr object>\x7d").data := by
  refine ⟨rfl, rfl, ?_⟩
  decide

/-- Claim C5 (amended): on success (port opened, address obtained, and
the address object has a `netid` attribute) the discovery script prints
the machine-readable `PYADS_AMS_NET_ID:<six-part-id>` line on standard
output as its last line, but preceded by three debug lines: a header,
the object's `__dict__` dump, and a separator. -/
theorem C5_discovery_stdout (envR : RouterEnv) (p : Nat) (attrs : List (String × String))
    (nid : String)
    (hp : envR.portOpenResult = Except.ok p)
    (ha : envR.localAddressResult p = Except.ok ⟨attrs, some nid⟩) :
    stdoutOf (find_net_id envR) =
      ["--- AmsAddr Object Attributes ---",
       dictRepr ⟨attrs, some nid⟩,
       "---------------------------",
       "PYADS_AMS_NET_ID:" ++ nid] := by
  rw [find_net_id_portOk envR p hp, stdoutOf_append, stdoutOf_closeTrace,
      show stdoutOf (Action.portOpened p :: routerTryBody envR p) =
        stdoutOf (routerTryBody envR p) from rfl]
  unfold routerTryBody
  rw [ha]
  rfl

/-- Claim C5: witness instantiating the amended theorem at the
all-succeed router environment. -/
theorem C5_discovery_stdout_witness :
    (envRouterOk.portOpenResult = Except.ok 32905 ∧
     envRouterOk.localAddressResult 32905 =
       Except.ok ⟨[("_ams_addr", "<pyads.structs.SAmsAddr object>")],
         some "192.168.1.10.1.1"⟩) ∧
    stdoutOf (find_net_id envRouterOk) =
      ["--- AmsAddr Object Attributes ---",
       dictRepr ⟨[("_ams_addr", "<pyads.structs.SAmsAddr object>")],
         some "192.168.1.10.1.1"⟩,
       "---------------------------",
       "PYADS_AMS_NET_ID:" ++ "192.168.1.10.1.1"] :=
  ⟨⟨rfl, rfl⟩,
   C5_discovery_stdout envRouterOk 32905
     [("_ams_addr", "<pyads.structs.SAmsAddr object>")] "192.168.1.10.1.1" rfl rfl⟩

/-- Claim C6: a failed read never yields a numeric default — whenever
any of the library calls raises, `read_plc_tag` returns `None` (not a
value of any kind), and the CLI prints no value line to standard
output. -/
theorem C6_no_default_on_failure (env : PlcEnv) (prog tag : String)
    (rest : List String)
    (h : env.openRaises.isSome = true ∨
         (∃ e, env.readResult tag PlcType.real = Except.error e) ∨
         env.closeRaises.isSome = true) :
    (read_plc_tag env tag).1 = none ∧
    stdoutOf (ads_main env (prog :: tag :: rest)).2 = [] := by
  have hnone : (read_plc_tag env tag).1 = none := by
    unfold read_plc_tag
    rcases h1 : env.openRaises with _ | e
    · rcases h2 : env.readResult tag PlcType.real with e | v
      · rfl
      · rcases h3 : env.closeRaises with _ | e
        · exfalso
          rcases h with hb | ⟨e, he⟩ | hb
          · rw [h1] at hb
            exact Bool.false_ne_true hb
          · rw [h2] at he
            exact Except.noConfusion he
          · rw [h3] at hb
            exact Bool.false_ne_true hb
        · rfl
    · rfl
  refine ⟨hnone, ?_⟩
  rw [ads_main_stdout, hnone]

/-- Claim C6: witness instantiating the theorem at the failing-read
environment. -/
theorem C6_no_default_on_failure_witness :
    (envReadFail.openRaises.isSome = true ∨
     (∃ e, envReadFail.readResult "Temperature" PlcType.real = Except.error e) ∨
     envReadFail.closeRaises.isSome = true) ∧
    ((read_plc_tag envReadFail "Temperature").1 = none ∧
     stdoutOf (ads_main envReadFail ["ads.py", "Temperature"]).2 = []) :=
  ⟨Or.inr (Or.inl ⟨⟨ErrorKind.other, "read failed"⟩, rfl⟩),
   C6_no_default_on_failure envReadFail "ads.py" "Temperature" []
     (Or.inr (Or.inl ⟨⟨ErrorKind.other, "read failed"⟩, rfl⟩))⟩

/-- Claim C7: `read_plc_tag` is total with respect to exceptions — in
every environment it either returns from its `except Exception` handler
with `None` and exactly one `Python Error:` diagnostic on standard
error, or returns the read value with no diagnostic; no third exit path
(in particular no propagated exception) exists, and every failure kind
lands in the same untyped `None`. -/
theorem C7_total_collapse (env : PlcEnv) (tag : String) :
    ((read_plc_tag env tag).1 = none ∧
      ∃ m, stderrOf (read_plc_tag env tag).2 = ["Python Error: " ++ m]) ∨
    (∃ v, (read_plc_tag env tag).1 = some v ∧
      stderrOf (read_plc_tag env tag).2 = []) :=
  read_plc_tag_exit_paths env tag

/-- Claim C8, as stated, is false at a concrete input: for the
unresolvable tag `"Nonexistent"` the read operation does not fail with a
distinct `SymbolNotFound` error kind — it returns the very same untyped
`None` that a generic protocol error produces, so the two failure kinds
are indistinguishable in the operation's result. -/
theorem C8_counterexample :
    (read_plc_tag envSymFail "Nonexistent").1 = none ∧
    (read_plc_tag envProtoFail "Nonexistent").1 = none ∧
    (read_plc_tag envSymFail "Nonexistent").1 =
      (read_plc_tag envProtoFail "Nonexistent").1 :=
  ⟨rfl, rfl, rfl⟩

/-- Claim C8 (amended): for every tag name the device cannot resolve,
`read_plc_tag` catches the library's symbol-not-found exception — the
process never crashes — prints its message as a diagnostic to standard
error, and returns `None`; no distinct `SymbolNotFound` kind survives to
the caller. -/
theorem C8_symbol_collapsed (env : PlcEnv) (tag : String) (e : PyError)
    (ho : env.openRaises = none)
    (hr : env.readResult tag PlcType.real = Except.error e)
    (hk : e.kind = ErrorKind.symbolNotFound) :
    (read_plc_tag env tag).1 = none ∧
    stderrOf (read_plc_tag env tag).2 = ["Python Error: " ++ e.msg] := by
  unfold read_plc_tag
  rw [ho, hr]
  exact ⟨rfl, rfl⟩

/-- Claim C8: witness instantiating the amended theorem at the
symbol-not-found environment. -/
theorem C8_symbol_collapsed_witness :
    (envSymFail.openRaises = none ∧
     envSymFail.readResult "Nonexistent" PlcType.real =
       Except.error ⟨ErrorKind.symbolNotFound, "symbol not found"⟩ ∧
     (⟨ErrorKind.symbolNotFound, "symbol not found"⟩ : PyError).kind =
       ErrorKind.symbolNotFound) ∧
    ((read_plc_tag envSymFail "Nonexistent").1 = none ∧
     stderrOf (read_plc_tag envSymFail "Nonexistent").2 =
       ["Python Error: " ++ "symbol not found"]) :=
  ⟨⟨rfl, rfl, rfl⟩,
   C8_symbol_collapsed envSymFail "Nonexistent"
     ⟨ErrorKind.symbolNotFound, "symbol not found"⟩ rfl rfl rfl⟩

/-- Claim C9: in every environment and for every argument vector, the
`read_by_name` requests the tag-reading script issues all carry
`PLCTYPE_REAL`: no request when the argument is missing or `open`
raises, otherwise exactly one, for the supplied tag name, with the wire
type fixed to `PLCTYPE_REAL` — the caller has no way to select any other
type. -/
theorem C9_fixed_read_type (env : PlcEnv) (argv : List String) :
    readRequests (ads_main env argv).2 =
      (match argv with
       | _ :: tag :: _ =>
           if env.openRaises.isSome = true then [] else [(tag, PlcType.real)]
       | _ => []) := by
  match argv with
  | [] => rfl
  | [p] => rfl
  | p :: tag :: rest =>
      rw [ads_main_trace, readRequests_append, readRequests_read_plc_tag]
      rcases (read_plc_tag env tag).1 with _ | v <;>
        simp [readRequests, Action.readRequest]

/-- Claim C10: invoked with no command-line argument (only the script
path in `sys.argv`), the script's whole behavior is the single
diagnostic `Python Error: No tag name provided.` on standard error:
nothing on standard output, no connection attempt, and (for any
environment) that one-line trace. -/
theorem C10_no_argument (env : PlcEnv) (prog : String) :
    (ads_main env [prog]).2 =
      [Action.printStderr "Python Error: No tag name provided."] ∧
    stderrOf (ads_main env [prog]).2 =
      ["Python Error: No tag name provided."] ∧
    stdoutOf (ads_main env [prog]).2 = [] ∧
    connectTargets (ads_main env [prog]).2 = [] :=
  ⟨rfl, rfl, rfl, rfl⟩

end AutomationHub
